import Mathlib

/-!
Verification of the Pyrus repository's specified behaviour.

Part 1 models the WHOOP OAuth TokenManager.  The Python module
`whoop_client.py` itself is not shipped in this snapshot (only its README,
callers and the persistence-fix changelog are), so the manager is modelled
from the spec (sections 3, 4.1, 7 and the October 2025 persistence-fix
note): a TokenRecord persisted in a single JSON file, a refresh protocol
with Transient / InvalidGrant / ConfigError / Success outcomes, a
non-interactive failure mode, and atomic tempfile-plus-replace writes.

Part 2 embeds code that is present in the snapshot: the
MMM-DateNightTracker node helper and module, and the web dashboard's
GET /api/health route handler.
-/

/-- Modelled from the spec: the only persisted entity of the missing
`whoop_client.py` TokenManager (spec section 3) — four fields:
`access_token`, `refresh_token`, absolute `expires_at`, `token_type`. -/
structure TokenRecord where
  access_token : String
  refresh_token : String
  expires_at : Nat
  token_type : String
  deriving DecidableEq, Repr

/-- Modelled from the spec: the content of the persisted store file.  It is
either absent, a fully populated record, or unreadable bytes (a corrupt or
half-written JSON document). -/
inductive StoreContent where
  | absent : StoreContent
  | valid : TokenRecord → StoreContent
  | corrupt : String → StoreContent
  deriving DecidableEq, Repr

/-- Modelled from the spec: the reader of the store.  A corrupt record is
treated as absent (spec section 4.1 persistence discipline: a reader
encountering an unparseable record treats it as absent rather than
propagating a parse exception) — the function is total and never fails. -/
def loadRecord : StoreContent → Option TokenRecord
  | .absent => none
  | .valid r => some r
  | .corrupt _ => none

/-- Modelled from the spec: the token tuple returned by the vendor token
endpoint on success; the rotated refresh token may be omitted. -/
structure RefreshSuccess where
  access_token : String
  refresh_token : Option String
  expires_in : Nat
  token_type : String
  deriving DecidableEq, Repr

/-- Modelled from the spec (section 9 design note): the classified outcome
of one refresh attempt — Success, Transient (network, timeout, 5xx),
InvalidGrant (4xx with an invalid_grant body), or ConfigError (other 4xx). -/
inductive RefreshOutcome where
  | success : RefreshSuccess → RefreshOutcome
  | transient : RefreshOutcome
  | invalidGrant : RefreshOutcome
  | configError : RefreshOutcome
  deriving DecidableEq, Repr

/-- Modelled from the spec: execution mode — interactive (operator present)
or non-interactive (cron). -/
inductive Mode where
  | interactive : Mode
  | nonInteractive : Mode
  deriving DecidableEq, Repr

/-- Modelled from the spec: what a `get_valid_token` caller sees (spec
section 7 error taxonomy, minus CorruptState which is silently mapped to
AuthorizationRequired). -/
inductive TokenResult where
  | token : String → TokenResult
  | authorizationRequired : TokenResult
  | transientError : TokenResult
  | configurationError : TokenResult
  deriving DecidableEq, Repr

/-- Modelled from the spec: the observable outcome of one `get_valid_token`
invocation: the result, the store content afterwards, how many network
calls were made (token endpoint plus authorization endpoint), and how many
operator prompts were issued. -/
structure GVTResult where
  result : TokenResult
  store : StoreContent
  networkCalls : Nat
  prompts : Nat
  deriving DecidableEq, Repr

/-- Modelled from the spec: refresh-success application (spec refresh
protocol): all four fields are overwritten; the stored refresh token is
kept only when the response omits a new one; `expires_at` is recomputed as
now plus the server-reported lifetime. -/
def applyRefresh (now : Nat) (old : TokenRecord) (t : RefreshSuccess) : TokenRecord :=
  { access_token := t.access_token
    refresh_token := t.refresh_token.getD old.refresh_token
    expires_at := now + t.expires_in
    token_type := t.token_type }

/-- Modelled from the spec: the bootstrap/failure path of step 4 of
`get_valid_token`.  Non-interactive mode fails fast with
AuthorizationRequired: no prompt, no further network call.  Interactive
mode drives the authorization-code flow, whose operator-dependent outcome
is the `authFlow` parameter (one prompt; one code-exchange network call on
completion). -/
def bootstrapFlow (m : Mode) (now : Nat) (store : StoreContent)
    (authFlow : Option RefreshSuccess) (calls : Nat) : GVTResult :=
  match m with
  | .nonInteractive => ⟨.authorizationRequired, store, calls, 0⟩
  | .interactive =>
    match authFlow with
    | some t =>
      let r : TokenRecord :=
        ⟨t.access_token, t.refresh_token.getD "", now + t.expires_in, t.token_type⟩
      ⟨.token t.access_token, .valid r, calls + 1, 1⟩
    | none => ⟨.authorizationRequired, store, calls, 1⟩

/-- Modelled from the spec: `get_valid_token` (spec section 4.1).
1. Load the record; absent or malformed goes to the bootstrap path.
2. Fresh record (`expires_at` more than the margin in the future): return
   it, zero network calls, store untouched.
3. Otherwise one refresh attempt: Success persists the new record and
   returns the new token; Transient and ConfigError leave the store
   untouched; InvalidGrant invalidates the store and continues to the
   bootstrap path.
The refresh attempt's classified outcome is the `refresh` parameter; the
interactive flow's outcome is `authFlow`. -/
def get_valid_token (m : Mode) (now margin : Nat) (store : StoreContent)
    (refresh : RefreshOutcome) (authFlow : Option RefreshSuccess) : GVTResult :=
  match loadRecord store with
  | some r =>
    if now + margin < r.expires_at then
      ⟨.token r.access_token, store, 0, 0⟩
    else
      match refresh with
      | .success t => ⟨.token (applyRefresh now r t).access_token,
          .valid (applyRefresh now r t), 1, 0⟩
      | .transient => ⟨.transientError, store, 1, 0⟩
      | .configError => ⟨.configurationError, store, 1, 0⟩
      | .invalidGrant => bootstrapFlow m now .absent authFlow 1
  | none => bootstrapFlow m now store authFlow 0

/-- Modelled from the spec: `invalidate` deletes the persisted record
unconditionally (idempotent). -/
def invalidate (_ : StoreContent) : StoreContent := .absent

/-- Modelled from the spec: token-file path resolution after the October
2025 persistence fix: an explicit `WHOOP_TOKEN_FILE` override wins;
otherwise the default is `data/whoop_tokens.json` resolved to an absolute
path under the project root — never relative to the caller's working
directory.  The `cwd` argument records the caller's working directory and
is deliberately unused. -/
def resolveTokenFile (envOverride : Option String) (projectRoot : String)
    (_cwd : String) : String :=
  match envOverride with
  | some p => p
  | none => projectRoot ++ "/data/whoop_tokens.json"

/-- A path under `/tmp/` is wiped on environment restart. -/
def isEphemeralPath (p : String) : Bool := "/tmp/".isPrefixOf p

/-- Modelled from the spec: the two files involved in an atomic write —
the main store file and the temporary file written first. -/
structure Disk where
  mainFile : StoreContent
  tmpFile : StoreContent
  deriving DecidableEq, Repr

/-- Modelled from the spec: the atomic write discipline (tempfile plus
rename/replace), cut off after `steps` completed steps to model a crash:
0 = crashed before anything, 1 = crashed after the complete record was
written to the temporary file but before the rename, 2 or more = the
rename completed. -/
def atomicSave (d : Disk) (r : TokenRecord) (steps : Nat) : Disk :=
  match steps with
  | 0 => d
  | 1 => { d with tmpFile := .valid r }
  | _ + 2 => { mainFile := .valid r, tmpFile := .absent }

/-!
Part 2a: MMM-DateNightTracker.  `getDateData` is the node helper's file
read (src/unnamed/part_002); `getDom` is the module's renderer
(MMM-DateNightTracker.js).
-/

/-- One suggested date idea, with the fields `createSuggestions` reads. -/
structure DateIdea where
  title : String
  budget : String
  energy : String
  deriving DecidableEq, Repr

/-- The date-suggestion payload, with the fields `getDom` and its helpers
read: `friday_date.urgency`, `friday_date.message`,
`last_date.days_since`, `weekly_health.energy_score`,
`weekly_health.energy_level`, `suggested_dates`. -/
structure DateData where
  urgency : String
  message : String
  days_since : Nat
  energy_score : Nat
  energy_level : String
  suggested_dates : List DateIdea
  deriving DecidableEq, Repr

/-- The state of the data file the node helper reads: missing or
unreadable (fs.readFile reports an error), readable but not valid JSON
(JSON.parse throws), or readable valid JSON. -/
inductive DateFileState where
  | missing : DateFileState
  | unreadable : DateFileState
  | invalidJSON : String → DateFileState
  | validJSON : DateData → DateFileState
  deriving DecidableEq, Repr

/-- The node helper's `getDateData` (part_002): on a read error it sends
DATE_DATA with a null payload; on a JSON.parse failure it catches the
exception and sends null; otherwise it sends the parsed data.  The
returned option is the DATE_DATA payload (`none` = null). -/
def getDateData : DateFileState → Option DateData
  | .missing => none
  | .unreadable => none
  | .invalidJSON _ => none
  | .validJSON d => some d

/-- The module's front-end state: `this.loaded` and `this.dateData`. -/
structure ModState where
  loaded : Bool
  dateData : Option DateData
  deriving DecidableEq, Repr

/-- `socketNotificationReceived` for DATE_DATA: stores the payload and
sets `loaded` to true. -/
def receiveDateData (_ : ModState) (payload : Option DateData) : ModState :=
  ⟨true, payload⟩

/-- What `getDom` renders: the loading message, the
"No date suggestions available" placeholder, or the full card (header
urgency class, days since last date, energy score, at most three
suggestions, footer message). -/
inductive Dom where
  | loadingMsg : Dom
  | noSuggestions : Dom
  | card : String → Nat → Nat → List DateIdea → String → Dom
  deriving DecidableEq, Repr

/-- `createHeader`'s urgency CSS class. -/
def urgencyClass (u : String) : String :=
  if u = "high" then "urgent" else if u = "medium" then "warning" else ""

/-- The module's `getDom`: before any DATE_DATA arrives it shows the
loading message; with a null payload it shows the placeholder; otherwise
it builds the card from the data. -/
def getDom (s : ModState) : Dom :=
  if s.loaded = false then .loadingMsg
  else
    match s.dateData with
    | none => .noSuggestions
    | some d =>
      .card (urgencyClass d.urgency) d.days_since d.energy_score
        (d.suggested_dates.take 3) d.message

/-!
Part 2b: the web dashboard's GET /api/health route
(web-dashboard/app/api/health/route.ts) and the Supabase client guard
(web-dashboard/lib/supabase.ts).
-/

/-- The latest `health_metrics` row the Supabase query would return. -/
structure HealthRow where
  user_data : String
  wife_data : String
  timestamp : String
  deriving DecidableEq, Repr

/-- The destructured result of the Supabase query: `error` and `data`. -/
structure QueryResult where
  error : Bool
  data : Option HealthRow
  deriving DecidableEq, Repr

/-- The state of `../data/combined_health.json` relative to the process
working directory: absent (existsSync false), present but unreadable
(readFileSync throws), present but invalid JSON (JSON.parse throws), or
present with parseable contents. -/
inductive HealthFileState where
  | fileMissing : HealthFileState
  | fileUnreadable : HealthFileState
  | fileInvalid : String → HealthFileState
  | fileValid : String → HealthFileState
  deriving DecidableEq, Repr

/-- A JS value is truthy here iff the environment variable is set and
non-empty. -/
def envTruthy : Option String → Bool
  | none => false
  | some s => !(s = "")

/-- lib/supabase.ts: the exported client is non-null only when both
NEXT_PUBLIC_SUPABASE_URL and NEXT_PUBLIC_SUPABASE_ANON_KEY are truthy;
its behaviour is abstracted to the query result it would produce. -/
def supabaseClient (url key : Option String) (q : QueryResult) : Option QueryResult :=
  if envTruthy url && envTruthy key then some q else none

/-- The JSON bodies the route can answer with. -/
inductive HealthBody where
  | okSupabase : HealthRow → HealthBody
  | okFile : String → HealthBody
  | errNotFound : HealthBody
  | errFailed : HealthBody
  deriving DecidableEq, Repr

/-- An HTTP response: status code plus JSON body. -/
structure HealthResponse where
  status : Nat
  body : HealthBody
  deriving DecidableEq, Repr

/-- The local-file fallback of the route, including the surrounding
try/catch: a missing file is answered 404; a read or parse exception is
caught and answered 500; valid contents are answered 200. -/
def fileFallback : HealthFileState → HealthResponse
  | .fileMissing => ⟨404, .errNotFound⟩
  | .fileUnreadable => ⟨500, .errFailed⟩
  | .fileInvalid _ => ⟨500, .errFailed⟩
  | .fileValid j => ⟨200, .okFile j⟩

/-- route.ts GET: if the Supabase client exists and its query returns data
without error, answer 200 with the spread row; otherwise fall through to
the local file fallback.  The function is total: every path produces a
JSON response, mirroring the route's outer try/catch. -/
def healthGET (url key : Option String) (q : QueryResult)
    (f : HealthFileState) : HealthResponse :=
  match supabaseClient url key q with
  | some qr =>
    match qr.data with
    | some row => if qr.error = false then ⟨200, .okSupabase row⟩ else fileFallback f
    | none => fileFallback f
  | none => fileFallback f

/-!
Theorems.
-/

/-- C1: The TokenManager's persistent store location is resolvable
independent of the caller's working directory, defaults to the durable
`data/whoop_tokens.json` under the project root, and an ephemeral `/tmp`
location can only arise from an explicit override, never from the
default. -/
theorem tokenFile_cwd_independent_durable_default
    (env : Option String) (root c1 c2 : String) :
    resolveTokenFile env root c1 = resolveTokenFile env root c2 ∧
    resolveTokenFile none root c1 = root ++ "/data/whoop_tokens.json" ∧
    (isEphemeralPath (root ++ "/data/whoop_tokens.json") = false →
      isEphemeralPath (resolveTokenFile env root c1) = true → env ≠ none) := by
  refine ⟨?_, rfl, ?_⟩
  · cases env <;> rfl
  · intro hroot heph
    cases env with
    | none => simp [resolveTokenFile] at heph; rw [heph] at hroot; cases hroot
    | some p => simp

/-- Witness for C1 at a concrete deployment: project root `/home/pi/Pyrus`,
two different working directories. -/
theorem tokenFile_cwd_independent_witness :
    resolveTokenFile none "/home/pi/Pyrus" "/" =
        resolveTokenFile none "/home/pi/Pyrus" "/var/spool/cron" ∧
    resolveTokenFile none "/home/pi/Pyrus" "/" =
        "/home/pi/Pyrus" ++ "/data/whoop_tokens.json" ∧
    (isEphemeralPath ("/home/pi/Pyrus" ++ "/data/whoop_tokens.json") = false →
      isEphemeralPath (resolveTokenFile none "/home/pi/Pyrus" "/") = true →
      (none : Option String) ≠ none) :=
  tokenFile_cwd_independent_durable_default none "/home/pi/Pyrus" "/" "/var/spool/cron"

/-- C2: A refresh classified `invalid_grant` leaves the persisted record
entirely absent, and a subsequent non-interactive `get_valid_token` call
fails fast with AuthorizationRequired, making zero network calls with the
dead refresh token and issuing no prompt. -/
theorem invalid_grant_destroys_record_fails_fast
    (m : Mode) (now margin now2 margin2 : Nat) (old : TokenRecord)
    (refresh2 : RefreshOutcome) (af2 : Option RefreshSuccess)
    (h : ¬ (now + margin < old.expires_at)) :
    (get_valid_token m now margin (.valid old) .invalidGrant none).store = .absent ∧
    get_valid_token .nonInteractive now2 margin2
        (get_valid_token m now margin (.valid old) .invalidGrant none).store refresh2 af2
      = ⟨.authorizationRequired, .absent, 0, 0⟩ := by
  have hstore : (get_valid_token m now margin (.valid old) .invalidGrant none).store
      = .absent := by
    cases m <;> simp [get_valid_token, loadRecord, bootstrapFlow, h]
  refine ⟨hstore, ?_⟩
  rw [hstore]
  rfl

/-- Witness for C2: an expired record hits `invalid_grant`; the next
non-interactive call fails fast. -/
theorem invalid_grant_witness :
    (get_valid_token .nonInteractive 50 60 (.valid ⟨"a", "r", 100, "bearer"⟩)
        .invalidGrant none).store = .absent ∧
    get_valid_token .nonInteractive 99 1
        (get_valid_token .nonInteractive 50 60 (.valid ⟨"a", "r", 100, "bearer"⟩)
          .invalidGrant none).store .transient none
      = ⟨.authorizationRequired, .absent, 0, 0⟩ :=
  invalid_grant_destroys_record_fails_fast .nonInteractive 50 60 99 1
    ⟨"a", "r", 100, "bearer"⟩ .transient none (by decide)

/-- C3: A transient error (network failure, timeout, 5xx) during refresh
leaves the persisted record unchanged — the exact store content is
returned, so the next attempt retries with the same refresh token. -/
theorem transient_refresh_preserves_record
    (m : Mode) (now margin : Nat) (old : TokenRecord) (af : Option RefreshSuccess)
    (h : ¬ (now + margin < old.expires_at)) :
    get_valid_token m now margin (.valid old) .transient af
      = ⟨.transientError, .valid old, 1, 0⟩ := by
  simp [get_valid_token, loadRecord, h]

/-- Witness for C3 at a concrete expired record. -/
theorem transient_refresh_witness :
    get_valid_token .nonInteractive 50 60 (.valid ⟨"a", "r", 100, "bearer"⟩)
        .transient none
      = ⟨.transientError, .valid ⟨"a", "r", 100, "bearer"⟩, 1, 0⟩ :=
  transient_refresh_preserves_record .nonInteractive 50 60
    ⟨"a", "r", 100, "bearer"⟩ none (by decide)

/-- C4: A successful refresh replaces all four TokenRecord fields (access
token, refresh token, expires_at, token type); when the response omits a
new refresh token, the previously stored refresh token is retained. -/
theorem successful_refresh_replaces_fields
    (m : Mode) (now margin : Nat) (old : TokenRecord) (t : RefreshSuccess)
    (af : Option RefreshSuccess) (h : ¬ (now + margin < old.expires_at)) :
    get_valid_token m now margin (.valid old) (.success t) af
      = ⟨.token t.access_token,
          .valid ⟨t.access_token, t.refresh_token.getD old.refresh_token,
            now + t.expires_in, t.token_type⟩, 1, 0⟩ ∧
    (t.refresh_token = none →
      (applyRefresh now old t).refresh_token = old.refresh_token) := by
  constructor
  · simp [get_valid_token, loadRecord, h, applyRefresh]
  · intro ht
    simp [applyRefresh, ht]

/-- Witness for C4: a token-omitting refresh response; the old refresh
token `"r"` survives. -/
theorem successful_refresh_witness :
    get_valid_token .nonInteractive 50 60 (.valid ⟨"a", "r", 100, "bearer"⟩)
        (.success ⟨"a2", none, 3600, "bearer"⟩) none
      = ⟨.token "a2",
          .valid ⟨"a2", (none : Option String).getD "r", 50 + 3600, "bearer"⟩, 1, 0⟩ ∧
    ((none : Option String) = none →
      (applyRefresh 50 ⟨"a", "r", 100, "bearer"⟩ ⟨"a2", none, 3600, "bearer"⟩).refresh_token
        = "r") :=
  successful_refresh_replaces_fields .nonInteractive 50 60
    ⟨"a", "r", 100, "bearer"⟩ ⟨"a2", none, 3600, "bearer"⟩ none (by decide)

/-- C5: For a record whose `expires_at` is more than the safety margin in
the future, `get_valid_token` makes zero network calls, returns the stored
access token, and leaves the persisted record unchanged. -/
theorem fresh_record_no_network
    (m : Mode) (now margin : Nat) (old : TokenRecord) (refresh : RefreshOutcome)
    (af : Option RefreshSuccess) (h : now + margin < old.expires_at) :
    get_valid_token m now margin (.valid old) refresh af
      = ⟨.token old.access_token, .valid old, 0, 0⟩ := by
  simp [get_valid_token, loadRecord, h]

/-- Witness for C5: a record valid for ten more minutes, margin 60s. -/
theorem fresh_record_witness :
    get_valid_token .nonInteractive 1000 60 (.valid ⟨"a", "r", 1600, "bearer"⟩)
        .transient none
      = ⟨.token "a", .valid ⟨"a", "r", 1600, "bearer"⟩, 0, 0⟩ :=
  fresh_record_no_network .nonInteractive 1000 60 ⟨"a", "r", 1600, "bearer"⟩
    .transient none (by decide)

/-- C6: In non-interactive mode with no usable record (absent or
malformed), `get_valid_token` fails immediately with AuthorizationRequired:
zero network calls, zero prompts, store untouched. -/
theorem non_interactive_no_record_fails_fast
    (now margin : Nat) (refresh : RefreshOutcome) (af : Option RefreshSuccess)
    (raw : String) :
    get_valid_token .nonInteractive now margin .absent refresh af
      = ⟨.authorizationRequired, .absent, 0, 0⟩ ∧
    get_valid_token .nonInteractive now margin (.corrupt raw) refresh af
      = ⟨.authorizationRequired, .corrupt raw, 0, 0⟩ :=
  ⟨rfl, rfl⟩

/-- C7: The atomic write discipline: at every crash point — including
after the complete record has been written to the temporary file and
before the rename — the main store file holds either the previous content
or the complete new record, never anything in between; and the reader maps
any unparseable content to "absent" instead of failing. -/
theorem atomic_write_crash_safe (d : Disk) (r : TokenRecord) (k : Nat)
    (raw : String) :
    ((atomicSave d r k).mainFile = d.mainFile ∨
      (atomicSave d r k).mainFile = .valid r) ∧
    (atomicSave d r 1).mainFile = d.mainFile ∧
    (atomicSave d r 1).tmpFile = .valid r ∧
    loadRecord (.corrupt raw) = none := by
  refine ⟨?_, rfl, rfl, rfl⟩
  match k with
  | 0 => exact Or.inl rfl
  | 1 => exact Or.inl rfl
  | n + 2 => exact Or.inr rfl

/-- C8 counterexample: a successful refresh CAN shorten validity.  Prior
record expires at 100; at now = 50, margin = 60 the record is within the
margin, a refresh fires, and the vendor answers with `expires_in = 0`, so
the persisted `expires_at` drops from 100 to 50 — the refresh succeeds
(the new token is returned and persisted), no warning is modelled, and
monotonicity is violated. -/
theorem refresh_can_shorten_validity :
    get_valid_token .nonInteractive 50 60 (.valid ⟨"a", "r", 100, "bearer"⟩)
        (.success ⟨"a2", some "r2", 0, "bearer"⟩) none
      = ⟨.token "a2", .valid ⟨"a2", "r2", 50, "bearer"⟩, 1, 0⟩ ∧
    (50 : Nat) < 100 :=
  ⟨rfl, by decide⟩

/-- C8 (amended): whenever a refresh fires (the old record is within the
safety margin) and the server-reported lifetime is at least the safety
margin, the persisted `expires_at` is non-decreasing; a shorter-lived
vendor response is persisted anyway (no hard failure) and can decrease
it. -/
theorem expires_at_monotonic_with_margin
    (m : Mode) (now margin : Nat) (old : TokenRecord) (t : RefreshSuccess)
    (af : Option RefreshSuccess)
    (h1 : ¬ (now + margin < old.expires_at)) (h2 : margin ≤ t.expires_in) :
    (get_valid_token m now margin (.valid old) (.success t) af).store
      = .valid (applyRefresh now old t) ∧
    old.expires_at ≤ (applyRefresh now old t).expires_at := by
  constructor
  · simp [get_valid_token, loadRecord, h1]
  · simp only [applyRefresh]
    exact le_trans (Nat.not_lt.mp h1) (Nat.add_le_add_left h2 now)

/-- Witness for the amended C8: spec scenario — record expired an hour
ago, refresh returns `expires_in = 3600`. -/
theorem expires_at_monotonic_witness :
    (get_valid_token .nonInteractive 7200 60 (.valid ⟨"a", "r", 3600, "bearer"⟩)
        (.success ⟨"a2", some "r2", 3600, "bearer"⟩) none).store
      = .valid (applyRefresh 7200 ⟨"a", "r", 3600, "bearer"⟩
          ⟨"a2", some "r2", 3600, "bearer"⟩) ∧
    (TokenRecord.mk "a" "r" 3600 "bearer").expires_at
      ≤ (applyRefresh 7200 ⟨"a", "r", 3600, "bearer"⟩
          ⟨"a2", some "r2", 3600, "bearer"⟩).expires_at :=
  expires_at_monotonic_with_margin .nonInteractive 7200 60
    ⟨"a", "r", 3600, "bearer"⟩ ⟨"a2", some "r2", 3600, "bearer"⟩ none
    (by decide) (by decide)

/-- C9: For every bad state of the date-suggestion file — missing,
unreadable, or invalid JSON — the node helper's `getDateData` produces a
null DATE_DATA payload (it never throws: it is total), and after the
module receives that notification its `getDom` renders the
"No date suggestions available" placeholder. -/
theorem bad_date_file_renders_placeholder (s : ModState) (raw : String) :
    getDateData .missing = none ∧
    getDateData .unreadable = none ∧
    getDateData (.invalidJSON raw) = none ∧
    getDom (receiveDateData s (getDateData .missing)) = .noSuggestions ∧
    getDom (receiveDateData s (getDateData .unreadable)) = .noSuggestions ∧
    getDom (receiveDateData s (getDateData (.invalidJSON raw))) = .noSuggestions :=
  ⟨rfl, rfl, rfl, rfl, rfl, rfl⟩

/-- C10: The /api/health route always answers with a JSON response whose
status is 200, 404 or 500: a null Supabase client (either env var unset),
a query error, or an empty query result all fall through to the local
file; a missing file answers 404; a read or parse exception is caught and
answers 500. -/
theorem health_route_fallback_total
    (url key : Option String) (q : QueryResult) (f : HealthFileState)
    (d : Option HealthRow) (e : Bool) (raw contents : String) :
    healthGET none key q f = fileFallback f ∧
    healthGET url none q f = fileFallback f ∧
    healthGET url key ⟨true, d⟩ f = fileFallback f ∧
    healthGET url key ⟨e, none⟩ f = fileFallback f ∧
    fileFallback .fileMissing = ⟨404, .errNotFound⟩ ∧
    fileFallback .fileUnreadable = ⟨500, .errFailed⟩ ∧
    fileFallback (.fileInvalid raw) = ⟨500, .errFailed⟩ ∧
    fileFallback (.fileValid contents) = ⟨200, .okFile contents⟩ ∧
    ((healthGET url key q f).status = 200 ∨ (healthGET url key q f).status = 404 ∨
      (healthGET url key q f).status = 500) := by
  have hf : (fileFallback f).status = 200 ∨ (fileFallback f).status = 404 ∨
      (fileFallback f).status = 500 := by
    cases f <;> simp [fileFallback]
  refine ⟨rfl, ?_, ?_, ?_, rfl, rfl, rfl, rfl, ?_⟩
  · simp [healthGET, supabaseClient, envTruthy, Bool.and_false]
  · cases hc : envTruthy url && envTruthy key <;>
      cases d <;> simp [healthGET, supabaseClient, hc]
  · cases hc : envTruthy url && envTruthy key <;>
      simp [healthGET, supabaseClient, hc]
  · cases hq : supabaseClient url key q with
    | none => simpa [healthGET, hq] using hf
    | some qr =>
      cases hd : qr.data with
      | none => simpa [healthGET, hq, hd] using hf
      | some row =>
        by_cases he : qr.error = false
        · simp [healthGET, hq, hd, he]
        · simpa [healthGET, hq, hd, he] using hf
